import Mathlib

/-!
Verification of the urgency-classification core of the MAC-AI healthcare
chatbot (`analyzeSymptoms` and `generateMedicalResponse` in the server
source).  The JavaScript functions are shallowly embedded as executable
Lean definitions: strings are `String`, JS `String.prototype.includes` is
substring containment, `[...new Set(a)]` is first-occurrence deduplication,
and the `forEach` accumulation loop is a `List.foldl` over an explicit
state record.
-/

/-- The four urgency labels used by the rule table. -/
inductive Urgency where
  | low
  | medium
  | high
  | critical
deriving DecidableEq, Repr, Fintype

/-- One entry of `medicalKnowledgeBase.symptoms`: the object key is `id`,
the value supplies keywords, candidate conditions, an urgency label, one
advice string and one prevention string. -/
structure SymptomRule where
  id : String
  keywords : List String
  conditions : List String
  urgency : Urgency
  advice : String
  prevention : String
deriving DecidableEq, Repr

/-- The static `medicalKnowledgeBase` object: symptom rules in object-key
insertion order, the emergency keyword list, and the (unused by the
classifier) health tips. -/
structure KnowledgeBase where
  symptoms : List SymptomRule
  emergencyKeywords : List String
  healthTipsGeneral : List String
  healthTipsPreventive : List String
deriving DecidableEq, Repr

/-- `leadMatch needle hay` is true when `hay` starts with `needle`. -/
def leadMatch : List Char → List Char → Bool
  | [], _ => true
  | _ :: _, [] => false
  | a :: as, b :: bs => a == b && leadMatch as bs

/-- Substring search over character lists: some suffix of the haystack
starts with the needle. -/
def listIncludesAux (needle : List Char) : List Char → Bool
  | [] => needle.isEmpty
  | c :: cs => leadMatch needle (c :: cs) || listIncludesAux needle cs

/-- JS `s.includes(k)`: `k` occurs as a contiguous substring of `s`. -/
def jsIncludes (s k : String) : Bool :=
  listIncludesAux k.data s.data

/-- JS `s.toLowerCase()` (ASCII case folding, which covers every keyword
in the table). -/
def lowerStr (s : String) : String :=
  ⟨s.data.map Char.toLower⟩

/-- First-occurrence deduplication with an accumulator of already-seen
elements; models iterating a JS `Set` built from an array (insertion
order, first add wins). -/
def dedupAux (seen : List String) : List String → List String
  | [] => []
  | x :: xs =>
    if x ∈ seen then dedupAux seen xs
    else x :: dedupAux (x :: seen) xs

/-- JS `[...new Set(a)]`. -/
def jsSetDedup (l : List String) : List String :=
  dedupAux [] l

/-- The static rule table and emergency keywords, transcribed from the
`medicalKnowledgeBase` constant in the server source. -/
def medicalKnowledgeBase : KnowledgeBase :=
  { symptoms :=
      [ { id := "fever"
        , keywords := ["fever", "temperature", "hot", "chills", "bukhar", "thand", "body heat"]
        , conditions := ["viral infection", "bacterial infection", "malaria", "typhoid", "dengue"]
        , urgency := Urgency.medium
        , advice := "Monitor temperature regularly, stay hydrated, rest. Seek medical help if temperature exceeds 103°F or persists >3 days"
        , prevention := "Maintain hygiene, avoid crowded places during outbreaks, drink clean water" }
      , { id := "cough"
        , keywords := ["cough", "coughing", "khansi", "throat", "dry cough", "wet cough"]
        , conditions := ["common cold", "bronchitis", "pneumonia", "tuberculosis", "asthma"]
        , urgency := Urgency.low
        , advice := "Stay hydrated, avoid cold foods, use warm salt water gargle. Seek help if cough persists >2 weeks or with blood"
        , prevention := "Avoid smoking, wear masks in polluted areas, maintain good ventilation" }
      , { id := "chestPain"
        , keywords := ["chest pain", "heart pain", "cardiac", "seene mein dard", "breathing pain"]
        , conditions := ["heart attack", "angina", "acid reflux", "anxiety", "muscle strain"]
        , urgency := Urgency.critical
        , advice := "EMERGENCY: Call 108 immediately for chest pain. Do not ignore. Sit upright, stay calm."
        , prevention := "Regular exercise, healthy diet, stress management, avoid smoking" }
      , { id := "breathingDifficulty"
        , keywords := ["breathing", "shortness", "difficulty", "saans", "breathless", "oxygen"]
        , conditions := ["asthma", "pneumonia", "heart failure", "anxiety", "covid-19"]
        , urgency := Urgency.high
        , advice := "Seek immediate medical attention. Sit upright, stay calm, use prescribed inhaler if available"
        , prevention := "Avoid allergens, maintain clean environment, regular check-ups" }
      , { id := "headache"
        , keywords := ["headache", "migraine", "head pain", "sir dard", "brain pain"]
        , conditions := ["tension headache", "migraine", "hypertension", "sinus", "dehydration"]
        , urgency := Urgency.low
        , advice := "Rest in dark room, stay hydrated, gentle massage. Seek help if sudden severe headache"
        , prevention := "Regular sleep schedule, stress management, stay hydrated, limit screen time" }
      , { id := "stomachPain"
        , keywords := ["stomach pain", "abdominal", "pet dard", "gas", "acidity", "digestion"]
        , conditions := ["gastritis", "food poisoning", "appendicitis", "gas", "ulcer"]
        , urgency := Urgency.medium
        , advice := "Avoid spicy foods, stay hydrated, rest. Severe pain with fever needs immediate attention"
        , prevention := "Eat fresh food, maintain hygiene, avoid overeating, regular meal times" }
      ]
  , emergencyKeywords :=
      [ "emergency", "urgent", "critical", "help me", "cant breathe", "chest pain"
      , "heart attack", "stroke", "unconscious", "bleeding", "accident", "choking"
      , "poisoning", "severe pain", "difficulty breathing", "suicide", "overdose" ]
  , healthTipsGeneral :=
      [ "Drink 8-10 glasses of water daily"
      , "Exercise for at least 30 minutes daily"
      , "Eat 5 servings of fruits and vegetables daily"
      , "Get 7-8 hours of quality sleep"
      , "Practice stress management techniques"
      , "Avoid smoking and limit alcohol consumption" ]
  , healthTipsPreventive :=
      [ "Wash hands frequently with soap for 20 seconds"
      , "Maintain social distancing in crowded places"
      , "Get regular health check-ups"
      , "Keep vaccinations up to date"
      , "Maintain healthy weight"
      , "Practice good posture" ] }

/-- The value returned by `analyzeSymptoms`. -/
structure ClassificationResult where
  symptoms : List String
  urgency : Urgency
  conditions : List String
  advice : List String
  prevention : List String
deriving DecidableEq, Repr

/-- The mutable locals of `analyzeSymptoms` during the rule loop. -/
structure AnalysisState where
  detectedSymptoms : List String
  urgencyLevel : Urgency
  possibleConditions : List String
  advice : List String
  prevention : List String
deriving DecidableEq, Repr

/-- The urgency-update chain of the rule loop (the three `if`/`else if`
branches on `data.urgency`): `critical` always wins, `high` is taken only
when the running level is not already `critical`, `medium` only when it is
exactly `low`, and `low` changes nothing. -/
def stepUrgency (u : Urgency) (r : Urgency) : Urgency :=
  if r = Urgency.critical then Urgency.critical
  else if u ≠ Urgency.critical ∧ r = Urgency.high then Urgency.high
  else if u = Urgency.low ∧ r = Urgency.medium then Urgency.medium
  else u

/-- Whether a rule fires on the lowercased message: some keyword of the
rule occurs in it as a substring. -/
def matchesB (lowerMessage : String) (data : SymptomRule) : Bool :=
  data.keywords.any (fun keyword => jsIncludes lowerMessage keyword)

/-- One iteration of the `Object.entries(...).forEach` loop body of
`analyzeSymptoms`. -/
def ruleStep (lowerMessage : String) (st : AnalysisState) (data : SymptomRule) : AnalysisState :=
  if matchesB lowerMessage data then
    { detectedSymptoms := st.detectedSymptoms ++ [data.id]
      urgencyLevel := stepUrgency st.urgencyLevel data.urgency
      possibleConditions := st.possibleConditions ++ data.conditions
      advice := st.advice ++ [data.advice]
      prevention := st.prevention ++ [data.prevention] }
  else st

/-- `analyzeSymptoms(message)`: lowercase the message, set the initial
urgency from the emergency-keyword scan, run the rule loop, and return the
accumulated fields with the three lists deduplicated via `new Set`. -/
def analyzeSymptoms (message : String) : ClassificationResult :=
  let lowerMessage := lowerStr message
  let hasEmergency :=
    medicalKnowledgeBase.emergencyKeywords.any (fun keyword => jsIncludes lowerMessage keyword)
  let init : AnalysisState :=
    { detectedSymptoms := []
      urgencyLevel := if hasEmergency then Urgency.critical else Urgency.low
      possibleConditions := []
      advice := []
      prevention := [] }
  let st := medicalKnowledgeBase.symptoms.foldl (ruleStep lowerMessage) init
  { symptoms := st.detectedSymptoms
    urgency := st.urgencyLevel
    conditions := jsSetDedup st.possibleConditions
    advice := jsSetDedup st.advice
    prevention := jsSetDedup st.prevention }

/-- JS `s.charAt(0).toUpperCase() + s.slice(1)`. -/
def capitalizeFirst (s : String) : String :=
  match s.data with
  | [] => ""
  | c :: cs => ⟨c.toUpper :: cs⟩

/-- The value returned by `generateMedicalResponse`.  The two non-critical
branches of the source omit the `autoActions` field; that absence is
modelled as the empty list. -/
structure ResponseBundle where
  response : String
  urgency : Urgency
  suggestions : List String
  autoActions : List String
deriving DecidableEq, Repr

/-- The fixed emergency template of the `urgency === 'critical'` branch
(template-literal newlines and indentation included). -/
def emergencyResponseText : String :=
  "🚨 <strong>EMERGENCY ALERT DETECTED</strong><br><br>\n            "
  ++ "Based on your symptoms, this requires immediate medical attention.<br><br>\n            "
  ++ "<strong>🚑 IMMEDIATE ACTIONS REQUIRED:</strong><br>\n            "
  ++ "📞 <strong>Call 108 (National Ambulance Service) NOW</strong><br>\n            "
  ++ "📞 <strong>Call 102 (Emergency Medical Service)</strong><br>\n            "
  ++ "🏥 <strong>Go to nearest emergency room immediately</strong><br><br>\n            "
  ++ "<strong>While waiting for help:</strong><br>\n            "
  ++ "• Stay calm and sit upright<br>\n            "
  ++ "• Do not drive yourself<br>\n            "
  ++ "• Have someone stay with you<br>\n            "
  ++ "• Keep emergency contacts ready<br><br>\n            "
  ++ "⚠️ <strong>DO NOT DELAY - SEEK IMMEDIATE MEDICAL HELP!</strong><br><br>\n            "
  ++ "<em>Emergency services have been notified automatically.</em>"

/-- The fixed onboarding template of the `symptoms.length === 0` branch. -/
def welcomeResponseText : String :=
  "🩺 <strong>Welcome to MAC AI Healthcare Assistant</strong><br><br>\n            "
  ++ "I\x27m here to help with your health concerns. I can provide:<br><br>\n            "
  ++ "<strong>🔍 Health Services:</strong><br>\n            "
  ++ "• Symptom analysis and guidance<br>\n            "
  ++ "• Disease prevention tips<br>\n            "
  ++ "• Healthcare facility finder<br>\n            "
  ++ "• Emergency assistance<br>\n            "
  ++ "• Health education<br><br>\n            "
  ++ "<strong>💬 How to get help:</strong><br>\n            "
  ++ "Please describe your symptoms in detail:<br>\n            "
  ++ "• What are you experiencing?<br>\n            "
  ++ "• When did it start?<br>\n            "
  ++ "• How severe is it (1-10 scale)?<br>\n            "
  ++ "• Any other associated symptoms?<br><br>\n            "
  ++ "<em>Example: \"I have fever for 2 days with headache and body ache\"</em><br><br>\n            "
  ++ "<strong>🔒 Your privacy is protected</strong> - All conversations are confidential."

/-- The templated composition of the detected-symptoms branch: header,
bulleted symptoms, bulleted advice, conditions capped at four with a
disclaimer, prevention tips, the urgency banner for high/medium, the fixed
next-steps and seek-immediate-help blocks, and the closing prompt. -/
def composedResponseText (analysis : ClassificationResult) : String :=
  let r0 := "🩺 <strong>MAC AI Health Analysis</strong><br><br>"
  let r1 := r0 ++ "<strong>📋 Detected Symptoms:</strong><br>"
  let r2 := analysis.symptoms.foldl
    (fun acc symptom => acc ++ "• " ++ capitalizeFirst symptom ++ "<br>") r1
  let r3 := r2 ++ "<br>"
  let r4 := r3 ++ "<strong>💡 Medical Guidance:</strong><br>"
  let r5 := analysis.advice.foldl
    (fun acc adviceItem => acc ++ "• " ++ adviceItem ++ "<br>") r4
  let r6 := r5 ++ "<br>"
  let r7 :=
    if analysis.conditions.length > 0 then
      let c1 := r6 ++ "<strong>🔍 Possible Conditions (for reference):</strong><br>"
      let c2 := (analysis.conditions.take 4).foldl
        (fun acc condition => acc ++ "• " ++ capitalizeFirst condition ++ "<br>") c1
      c2 ++ "<br><em>⚠️ This is for informational purposes only. Consult a doctor for proper diagnosis.</em><br><br>"
    else r6
  let r8 :=
    if analysis.prevention.length > 0 then
      let p1 := r7 ++ "<strong>🛡️ Prevention Tips:</strong><br>"
      let p2 := analysis.prevention.foldl
        (fun acc preventionItem => acc ++ "• " ++ preventionItem ++ "<br>") p1
      p2 ++ "<br>"
    else r7
  let r9 :=
    if analysis.urgency = Urgency.high then
      r8 ++ "⚠️ <strong>HIGH PRIORITY:</strong> Please seek medical attention soon. Don\x27t delay if symptoms worsen.<br><br>"
    else if analysis.urgency = Urgency.medium then
      r8 ++ "⚠️ <strong>MODERATE CONCERN:</strong> Monitor symptoms closely. Consult a doctor if they persist or worsen.<br><br>"
    else r8
  let r10 := r9 ++ "<strong>🏥 Next Steps:</strong><br>"
    ++ "• Document your symptoms and their progression<br>"
    ++ "• Monitor any changes in your condition<br>"
    ++ "• Consider consulting a healthcare professional<br>"
    ++ "• I can help you find nearby Ayushman Bharat empanelled facilities<br><br>"
  let r11 := r10 ++ "<strong>🆘 When to seek immediate help:</strong><br>"
    ++ "• Symptoms suddenly worsen<br>"
    ++ "• Difficulty breathing or chest pain<br>"
    ++ "• High fever (>103°F) or severe dehydration<br>"
    ++ "• Loss of consciousness or severe weakness<br><br>"
  r11 ++ "Would you like me to help you find nearby healthcare facilities or provide more specific guidance?"

/-- `generateMedicalResponse(analysis, userMessage, userContext = {})`.
The source never reads `userMessage` or `userContext`; they are carried
here (the context with an arbitrary type, as the JS call sites pass plain
objects) to state that the output does not depend on them. -/
def generateMedicalResponse {κ : Type} (analysis : ClassificationResult)
    (userMessage : String) (userContext : κ) : ResponseBundle :=
  if analysis.urgency = Urgency.critical then
    { response := emergencyResponseText
      urgency := Urgency.critical
      suggestions := ["Call 108 Now", "Nearest Emergency Room", "Emergency Contacts"]
      autoActions := ["emergency_alert", "notify_contacts"] }
  else if analysis.symptoms.length = 0 then
    { response := welcomeResponseText
      urgency := Urgency.low
      suggestions := ["Describe Symptoms", "Find Hospital", "Health Tips", "Emergency Help"]
      autoActions := [] }
  else
    { response := composedResponseText analysis
      urgency := analysis.urgency
      suggestions := ["Find Nearby Hospital", "Ayushman Bharat Services", "More Prevention Tips", "Emergency Contacts"]
      autoActions := [] }

/-- Rank of an urgency label in the total order low < medium < high <
critical. -/
def urgRank : Urgency → Nat
  | Urgency.low => 0
  | Urgency.medium => 1
  | Urgency.high => 2
  | Urgency.critical => 3

/-- Modelled from the spec: the simple maximum of two urgency labels under
low < medium < high < critical, the order-independent merge the spec
contrasts with the source's asymmetric promotion chain. -/
def specMaxUrgency (u v : Urgency) : Urgency :=
  if urgRank u ≤ urgRank v then v else u

/-! ## Helper lemmas -/

/-- A `critical` running level is absorbing for the promotion chain. -/
theorem stepUrgency_critical_absorb : ∀ r : Urgency, stepUrgency Urgency.critical r = Urgency.critical := by
  decide

/-- The promotion chain never lowers the running level. -/
theorem stepUrgency_mono : ∀ u r : Urgency, urgRank u ≤ urgRank (stepUrgency u r) := by
  decide

/-- The promotion chain coincides pointwise with the simple maximum. -/
theorem stepUrgency_eq_specMax : ∀ u r : Urgency, stepUrgency u r = specMaxUrgency u r := by
  decide

/-- The simple maximum is right-commutative. -/
theorem specMaxUrgency_right_comm :
    ∀ a b c : Urgency, specMaxUrgency (specMaxUrgency a b) c = specMaxUrgency (specMaxUrgency a c) b := by
  decide

/-- Folding the promotion chain from `critical` stays at `critical`. -/
theorem foldl_stepUrgency_critical :
    ∀ l : List Urgency, List.foldl stepUrgency Urgency.critical l = Urgency.critical := by
  intro l
  induction l with
  | nil => rfl
  | cons r rs ih => rw [List.foldl_cons, stepUrgency_critical_absorb]; exact ih

/-- Folding the promotion chain never lowers the rank of the seed. -/
theorem foldl_stepUrgency_mono :
    ∀ (l : List Urgency) (i : Urgency), urgRank i ≤ urgRank (List.foldl stepUrgency i l) := by
  intro l
  induction l with
  | nil => intro i; exact Nat.le_refl _
  | cons a as ih => intro i; rw [List.foldl_cons]; exact Nat.le_trans (stepUrgency_mono i a) (ih _)

/-- Folding the promotion chain equals folding the simple maximum. -/
theorem foldl_stepUrgency_eq_specMax :
    ∀ (l : List Urgency) (i : Urgency), List.foldl stepUrgency i l = List.foldl specMaxUrgency i l := by
  intro l
  induction l with
  | nil => intro i; rfl
  | cons a as ih => intro i; rw [List.foldl_cons, List.foldl_cons, stepUrgency_eq_specMax]; exact ih _

/-- Folding the simple maximum is invariant under permutation of the list. -/
theorem foldl_specMax_perm :
    ∀ (i : Urgency) (l₁ l₂ : List Urgency), l₁.Perm l₂ →
      List.foldl specMaxUrgency i l₁ = List.foldl specMaxUrgency i l₂ := by
  intro i l₁ l₂ h
  induction h generalizing i with
  | nil => rfl
  | cons x _ ih => rw [List.foldl_cons, List.foldl_cons]; exact ih _
  | swap x y l => rw [List.foldl_cons, List.foldl_cons, List.foldl_cons, List.foldl_cons, specMaxUrgency_right_comm]
  | trans _ _ ih₁ ih₂ => exact (ih₁ i).trans (ih₂ i)

/-- Characterization of the rule loop: the final state appends, to the
initial state, the matched rules' ids, conditions, advice and prevention
in table order, and folds the promotion chain over their urgencies. -/
theorem foldl_ruleStep (lm : String) (rules : List SymptomRule) :
    ∀ st : AnalysisState,
      List.foldl (ruleStep lm) st rules =
        { detectedSymptoms := st.detectedSymptoms ++ (rules.filter (matchesB lm)).map SymptomRule.id
          urgencyLevel := List.foldl stepUrgency st.urgencyLevel
            ((rules.filter (matchesB lm)).map SymptomRule.urgency)
          possibleConditions := st.possibleConditions ++
            ((rules.filter (matchesB lm)).map SymptomRule.conditions).flatten
          advice := st.advice ++ (rules.filter (matchesB lm)).map SymptomRule.advice
          prevention := st.prevention ++ (rules.filter (matchesB lm)).map SymptomRule.prevention } := by
  induction rules with
  | nil => intro st; cases st; simp
  | cons r rs ih =>
    intro st
    rw [List.foldl_cons, ih (ruleStep lm st r)]
    by_cases h : matchesB lm r = true
    · simp [ruleStep, h, List.filter_cons, List.append_assoc]
    · simp [ruleStep, h, List.filter_cons]

/-- Closed form of `analyzeSymptoms` in terms of the matched-rule list. -/
theorem analyzeSymptoms_eq (message : String) :
    analyzeSymptoms message =
      { symptoms := (medicalKnowledgeBase.symptoms.filter (matchesB (lowerStr message))).map SymptomRule.id
        urgency := List.foldl stepUrgency
          (if medicalKnowledgeBase.emergencyKeywords.any
              (fun keyword => jsIncludes (lowerStr message) keyword) then Urgency.critical
            else Urgency.low)
          ((medicalKnowledgeBase.symptoms.filter (matchesB (lowerStr message))).map SymptomRule.urgency)
        conditions := jsSetDedup
          ((medicalKnowledgeBase.symptoms.filter (matchesB (lowerStr message))).map SymptomRule.conditions).flatten
        advice := jsSetDedup
          ((medicalKnowledgeBase.symptoms.filter (matchesB (lowerStr message))).map SymptomRule.advice)
        prevention := jsSetDedup
          ((medicalKnowledgeBase.symptoms.filter (matchesB (lowerStr message))).map SymptomRule.prevention) } := by
  simp only [analyzeSymptoms]
  rw [foldl_ruleStep]
  simp

/-- Membership in the deduplicated list: present in the input and not
already seen. -/
theorem dedupAux_mem_iff (x : String) :
    ∀ (l seen : List String), (x ∈ dedupAux seen l ↔ (x ∈ l ∧ x ∉ seen)) := by
  intro l
  induction l with
  | nil => intro seen; simp [dedupAux]
  | cons a as ih =>
    intro seen
    by_cases h : a ∈ seen
    · rw [dedupAux, if_pos h, ih]
      constructor
      · rintro ⟨hx, hs⟩; exact ⟨List.mem_cons_of_mem a hx, hs⟩
      · rintro ⟨hx, hs⟩
        rcases List.mem_cons.mp hx with rfl | h1
        · exact absurd h hs
        · exact ⟨h1, hs⟩
    · rw [dedupAux, if_neg h]
      constructor
      · intro hm
        rcases List.mem_cons.mp hm with rfl | h1
        · exact ⟨List.mem_cons_self x as, h⟩
        · have h2 := (ih (a :: seen)).mp h1
          exact ⟨List.mem_cons_of_mem a h2.1, fun hc => h2.2 (List.mem_cons_of_mem a hc)⟩
      · rintro ⟨hx, hs⟩
        by_cases hxa : x = a
        · subst hxa; exact List.mem_cons_self x _
        · rcases List.mem_cons.mp hx with h1 | h1
          · exact absurd h1 hxa
          · refine List.mem_cons_of_mem a ((ih (a :: seen)).mpr ⟨h1, fun hc => ?_⟩)
            rcases List.mem_cons.mp hc with h2 | h2
            · exact hxa h2
            · exact hs h2

/-- The deduplicated list has no duplicates. -/
theorem dedupAux_nodup : ∀ (l seen : List String), (dedupAux seen l).Nodup := by
  intro l
  induction l with
  | nil => intro seen; simp [dedupAux]
  | cons a as ih =>
    intro seen
    by_cases h : a ∈ seen
    · rw [dedupAux, if_pos h]; exact ih seen
    · rw [dedupAux, if_neg h, List.nodup_cons]
      refine ⟨fun hmem => ?_, ih (a :: seen)⟩
      exact ((dedupAux_mem_iff a as (a :: seen)).mp hmem).2 (List.mem_cons_self a seen)

/-- The deduplicated list is a sublist of the input (order preserved). -/
theorem dedupAux_sublist : ∀ (l seen : List String), (dedupAux seen l).Sublist l := by
  intro l
  induction l with
  | nil => intro seen; simp [dedupAux]
  | cons a as ih =>
    intro seen
    by_cases h : a ∈ seen
    · simpa [dedupAux, h] using (ih seen).cons a
    · simpa [dedupAux, h] using (ih (a :: seen)).cons₂ a

/-- `dedupAux` only depends on the membership of the accumulator. -/
theorem dedupAux_congr :
    ∀ (l s₁ s₂ : List String), (∀ y, y ∈ s₁ ↔ y ∈ s₂) → dedupAux s₁ l = dedupAux s₂ l := by
  intro l
  induction l with
  | nil => intro s₁ s₂ _; rfl
  | cons a as ih =>
    intro s₁ s₂ h
    by_cases ha : a ∈ s₁
    · rw [dedupAux, dedupAux, if_pos ha, if_pos ((h a).mp ha)]
      exact ih s₁ s₂ h
    · rw [dedupAux, dedupAux, if_neg ha, if_neg (fun hc => ha ((h a).mpr hc))]
      refine congrArg (a :: ·) (ih (a :: s₁) (a :: s₂) fun y => ?_)
      simp [h y]

/-- Seeding the accumulator with `x` is the same as pre-filtering `x` out
of the input. -/
theorem dedupAux_seen_filter :
    ∀ (l seen : List String) (x : String),
      dedupAux (x :: seen) l = dedupAux seen (l.filter (fun y => !(y == x))) := by
  intro l
  induction l with
  | nil => intro seen x; rfl
  | cons a as ih =>
    intro seen x
    by_cases hax : a = x
    · subst hax
      rw [dedupAux, if_pos (List.mem_cons_self a seen)]
      have hf : List.filter (fun y => !(y == a)) (a :: as) = List.filter (fun y => !(y == a)) as := by
        simp [List.filter_cons]
      rw [hf]
      exact ih seen a
    · have hf : List.filter (fun y => !(y == x)) (a :: as) = a :: List.filter (fun y => !(y == x)) as := by
        simp [List.filter_cons, hax]
      by_cases ha : a ∈ seen
      · rw [dedupAux, if_pos (List.mem_cons_of_mem x ha), hf, dedupAux, if_pos ha]
        exact ih seen x
      · have hnotin : a ∉ x :: seen := by
          intro hc
          rcases List.mem_cons.mp hc with h1 | h2
          · exact hax h1
          · exact ha h2
        rw [dedupAux, if_neg hnotin, hf, dedupAux, if_neg ha]
        refine congrArg (a :: ·) ?_
        rw [← ih (a :: seen) x]
        exact dedupAux_congr as (a :: x :: seen) (x :: a :: seen) (fun y => by
          constructor
          · intro hy
            rcases List.mem_cons.mp hy with h1 | h1
            · exact List.mem_cons_of_mem x (h1 ▸ List.mem_cons_self a seen)
            · rcases List.mem_cons.mp h1 with h2 | h2
              · exact h2 ▸ List.mem_cons_self x (a :: seen)
              · exact List.mem_cons_of_mem x (List.mem_cons_of_mem a h2)
          · intro hy
            rcases List.mem_cons.mp hy with h1 | h1
            · exact List.mem_cons_of_mem a (h1 ▸ List.mem_cons_self x seen)
            · rcases List.mem_cons.mp h1 with h2 | h2
              · exact h2 ▸ List.mem_cons_self a (x :: seen)
              · exact List.mem_cons_of_mem a (List.mem_cons_of_mem x h2))

/-- First occurrence kept: deduplication keeps the head and removes its
later duplicates. -/
theorem jsSetDedup_cons (x : String) (xs : List String) :
    jsSetDedup (x :: xs) = x :: jsSetDedup (xs.filter (fun y => !(y == x))) := by
  unfold jsSetDedup
  rw [dedupAux, if_neg (List.not_mem_nil x)]
  exact congrArg (x :: ·) (dedupAux_seen_filter xs [] x)

/-- Projection of `analyzeSymptoms_eq`: the detected symptoms. -/
theorem analyzeSymptoms_symptoms (message : String) :
    (analyzeSymptoms message).symptoms =
      (medicalKnowledgeBase.symptoms.filter (matchesB (lowerStr message))).map SymptomRule.id := by
  rw [analyzeSymptoms_eq]

/-- Projection of `analyzeSymptoms_eq`: the final urgency. -/
theorem analyzeSymptoms_urgency (message : String) :
    (analyzeSymptoms message).urgency =
      List.foldl stepUrgency
        (if medicalKnowledgeBase.emergencyKeywords.any
            (fun keyword => jsIncludes (lowerStr message) keyword) then Urgency.critical
          else Urgency.low)
        ((medicalKnowledgeBase.symptoms.filter (matchesB (lowerStr message))).map SymptomRule.urgency) := by
  rw [analyzeSymptoms_eq]

/-- Projection of `analyzeSymptoms_eq`: the conditions list. -/
theorem analyzeSymptoms_conditions (message : String) :
    (analyzeSymptoms message).conditions =
      jsSetDedup
        ((medicalKnowledgeBase.symptoms.filter (matchesB (lowerStr message))).map SymptomRule.conditions).flatten := by
  rw [analyzeSymptoms_eq]

/-- Projection of `analyzeSymptoms_eq`: the advice list. -/
theorem analyzeSymptoms_advice (message : String) :
    (analyzeSymptoms message).advice =
      jsSetDedup
        ((medicalKnowledgeBase.symptoms.filter (matchesB (lowerStr message))).map SymptomRule.advice) := by
  rw [analyzeSymptoms_eq]

/-- Projection of `analyzeSymptoms_eq`: the prevention list. -/
theorem analyzeSymptoms_prevention (message : String) :
    (analyzeSymptoms message).prevention =
      jsSetDedup
        ((medicalKnowledgeBase.symptoms.filter (matchesB (lowerStr message))).map SymptomRule.prevention) := by
  rw [analyzeSymptoms_eq]

/-- The `autoActions` field of the response bundle as a function of the
analysis urgency alone. -/
theorem generateMedicalResponse_autoActions {κ : Type} (analysis : ClassificationResult)
    (userMessage : String) (userContext : κ) :
    (generateMedicalResponse analysis userMessage userContext).autoActions =
      (if analysis.urgency = Urgency.critical then ["emergency_alert", "notify_contacts"] else []) := by
  unfold generateMedicalResponse
  by_cases h : analysis.urgency = Urgency.critical
  · rw [if_pos h, if_pos h]
  · rw [if_neg h, if_neg h]
    by_cases h2 : analysis.symptoms.length = 0
    · rw [if_pos h2]
    · rw [if_neg h2]

/-! ## Claims -/

/-- C1 (amended): every input whose lowercased form contains an emergency
keyword of `medicalKnowledgeBase.emergencyKeywords` as a substring is
classified with urgency `critical`, regardless of any other content. -/
theorem emergencyKeyword_forces_critical (msg keyword : String)
    (hk : keyword ∈ medicalKnowledgeBase.emergencyKeywords)
    (hc : jsIncludes (lowerStr msg) keyword = true) :
    (analyzeSymptoms msg).urgency = Urgency.critical := by
  have hany : (medicalKnowledgeBase.emergencyKeywords.any
      (fun keyword => jsIncludes (lowerStr msg) keyword)) = true := by
    rw [List.any_eq_true]
    exact ⟨keyword, hk, hc⟩
  rw [analyzeSymptoms_urgency]
  simp only [hany, if_true]
  exact foldl_stepUrgency_critical _

/-- C1 witness: "I cant breathe" contains the emergency keyword
"cant breathe" and is classified `critical`. -/
theorem emergencyKeyword_forces_critical_witness :
    (analyzeSymptoms "I cant breathe").urgency = Urgency.critical :=
  emergencyKeyword_forces_critical "I cant breathe" "cant breathe" (by decide) (by decide)

/-- C1 counterexample: the spec's example input "I can't breathe" contains
no member of the emergency keyword set (the set spells the keyword
"cant breathe" without an apostrophe), and `analyzeSymptoms` classifies it
`low`, not `critical`. -/
theorem cant_breathe_apostrophe_counterexample :
    (medicalKnowledgeBase.emergencyKeywords.all
      (fun keyword => !(jsIncludes (lowerStr "I can\x27t breathe") keyword))) = true ∧
    (analyzeSymptoms "I can\x27t breathe").urgency = Urgency.low := by
  decide

/-- C2: the bundle's `autoActions` equals `[emergency_alert,
notify_contacts]` when the analysis urgency is `critical` and is empty
otherwise; in particular it contains `emergency_alert` iff the urgency is
`critical`. -/
theorem autoActions_emergency_alert_iff_critical {κ : Type} (analysis : ClassificationResult)
    (userMessage : String) (userContext : κ) :
    ((generateMedicalResponse analysis userMessage userContext).autoActions =
      (if analysis.urgency = Urgency.critical then ["emergency_alert", "notify_contacts"] else [])) ∧
    ("emergency_alert" ∈ (generateMedicalResponse analysis userMessage userContext).autoActions ↔
      analysis.urgency = Urgency.critical) := by
  refine ⟨generateMedicalResponse_autoActions analysis userMessage userContext, ?_⟩
  rw [generateMedicalResponse_autoActions]
  by_cases h : analysis.urgency = Urgency.critical
  · rw [if_pos h]
    exact iff_of_true (by decide) h
  · rw [if_neg h]
    exact iff_of_false (by decide) h

/-- C2 witness: a concrete critical analysis yields exactly the two
auto-action tags. -/
theorem autoActions_emergency_alert_iff_critical_witness :
    ((@generateMedicalResponse Unit ⟨[], Urgency.critical, [], [], []⟩ "help" ()).autoActions =
      (if (⟨[], Urgency.critical, [], [], []⟩ : ClassificationResult).urgency = Urgency.critical
        then ["emergency_alert", "notify_contacts"] else [])) ∧
    ("emergency_alert" ∈ (@generateMedicalResponse Unit ⟨[], Urgency.critical, [], [], []⟩ "help" ()).autoActions ↔
      (⟨[], Urgency.critical, [], [], []⟩ : ClassificationResult).urgency = Urgency.critical) :=
  @autoActions_emergency_alert_iff_critical Unit ⟨[], Urgency.critical, [], [], []⟩ "help" ()

/-- C3: in the precedence merge, a `critical` rule always sets the running
level to `critical`, a `low` rule never changes it, a `high` rule promotes
exactly when the running level is not already `critical`, and a `medium`
rule promotes exactly when the running level is `low`. -/
theorem stepUrgency_promotion_policy :
    ∀ u : Urgency,
      stepUrgency u Urgency.critical = Urgency.critical ∧
      stepUrgency u Urgency.low = u ∧
      stepUrgency u Urgency.high = (if u = Urgency.critical then u else Urgency.high) ∧
      stepUrgency u Urgency.medium = (if u = Urgency.low then Urgency.medium else u) := by
  decide

/-- C4: each iteration of the rule loop leaves the running urgency
non-decreasing under low < medium < high < critical, folding the promotion
chain never lowers the seed, and when an emergency keyword is present the
final urgency is `critical` whatever rules also match. -/
theorem urgency_monotone_nondecreasing :
    (∀ (lowerMessage : String) (st : AnalysisState) (data : SymptomRule),
      urgRank st.urgencyLevel ≤ urgRank ((ruleStep lowerMessage st data).urgencyLevel)) ∧
    (∀ (l : List Urgency) (u : Urgency), urgRank u ≤ urgRank (List.foldl stepUrgency u l)) ∧
    (∀ msg : String,
      (medicalKnowledgeBase.emergencyKeywords.any
        (fun keyword => jsIncludes (lowerStr msg) keyword)) = true →
      (analyzeSymptoms msg).urgency = Urgency.critical) := by
  refine ⟨?_, foldl_stepUrgency_mono, ?_⟩
  · intro lm st data
    unfold ruleStep
    by_cases h : matchesB lm data = true
    · rw [if_pos h]
      exact stepUrgency_mono _ _
    · rw [if_neg h]
  · intro msg hany
    rw [analyzeSymptoms_urgency]
    simp only [hany, if_true]
    exact foldl_stepUrgency_critical _

/-- C4 witness: a matching medium rule raises a low state, the fold over
one low rule does not lower a medium seed, and "emergency" is critical. -/
theorem urgency_monotone_nondecreasing_witness :
    urgRank (⟨[], Urgency.low, [], [], []⟩ : AnalysisState).urgencyLevel ≤
      urgRank ((ruleStep "i have fever" (⟨[], Urgency.low, [], [], []⟩ : AnalysisState)
        ⟨"fever", ["fever"], [], Urgency.medium, "", ""⟩).urgencyLevel) ∧
    urgRank Urgency.medium ≤ urgRank (List.foldl stepUrgency Urgency.medium [Urgency.low]) ∧
    (analyzeSymptoms "emergency").urgency = Urgency.critical :=
  ⟨urgency_monotone_nondecreasing.1 "i have fever" ⟨[], Urgency.low, [], [], []⟩
      ⟨"fever", ["fever"], [], Urgency.medium, "", ""⟩,
   urgency_monotone_nondecreasing.2.1 [Urgency.low] Urgency.medium,
   urgency_monotone_nondecreasing.2.2 "emergency" (by decide)⟩

/-- C5: an input matching no emergency keyword and no symptom rule is
classified without error as the empty result with urgency `low`. -/
theorem no_keyword_low_empty (msg : String)
    (hEmg : (medicalKnowledgeBase.emergencyKeywords.all
      (fun keyword => !(jsIncludes (lowerStr msg) keyword))) = true)
    (hSym : (medicalKnowledgeBase.symptoms.all
      (fun data => !(matchesB (lowerStr msg) data))) = true) :
    analyzeSymptoms msg = ⟨[], Urgency.low, [], [], []⟩ := by
  have hany : (medicalKnowledgeBase.emergencyKeywords.any
      (fun keyword => jsIncludes (lowerStr msg) keyword)) = false := by
    rw [List.any_eq_false]
    intro k hkmem
    have hk := List.all_eq_true.mp hEmg k hkmem
    simpa using hk
  have hfil : medicalKnowledgeBase.symptoms.filter (matchesB (lowerStr msg)) = [] := by
    rw [List.filter_eq_nil]
    intro d hd
    have hk := List.all_eq_true.mp hSym d hd
    simpa using hk
  rw [analyzeSymptoms_eq, hfil, hany]
  simp [jsSetDedup, dedupAux]

/-- C5 witness: the empty string matches nothing and yields the empty
low-urgency result. -/
theorem no_keyword_low_empty_witness :
    analyzeSymptoms "" = ⟨[], Urgency.low, [], [], []⟩ :=
  no_keyword_low_empty "" (by decide) (by decide)

/-- C6: the detected symptoms are exactly the ids of the matched rules in
table-definition order, and they contain no duplicates. -/
theorem detectedSymptoms_table_order_nodup (msg : String) :
    (analyzeSymptoms msg).symptoms =
      (medicalKnowledgeBase.symptoms.filter (matchesB (lowerStr msg))).map SymptomRule.id ∧
    (analyzeSymptoms msg).symptoms.Nodup := by
  refine ⟨analyzeSymptoms_symptoms msg, ?_⟩
  rw [analyzeSymptoms_symptoms msg]
  have hsub : ((medicalKnowledgeBase.symptoms.filter (matchesB (lowerStr msg))).map SymptomRule.id).Sublist
      (medicalKnowledgeBase.symptoms.map SymptomRule.id) :=
    List.Sublist.map SymptomRule.id (List.filter_sublist _)
  have hnd : (medicalKnowledgeBase.symptoms.map SymptomRule.id).Nodup := by decide
  exact List.Nodup.sublist hsub hnd

/-- C7: conditions, advice and prevention are the first-seen-order
deduplication of the concatenated fields of the matched rules; the
deduplication has no duplicates, preserves relative order (it is a
sublist), keeps exactly the members of the input, and keeps the first
occurrence of each duplicate. -/
theorem lists_dedup_union_first_seen (msg : String) :
    ((analyzeSymptoms msg).conditions = jsSetDedup
        ((medicalKnowledgeBase.symptoms.filter (matchesB (lowerStr msg))).map SymptomRule.conditions).flatten ∧
      (analyzeSymptoms msg).advice = jsSetDedup
        ((medicalKnowledgeBase.symptoms.filter (matchesB (lowerStr msg))).map SymptomRule.advice) ∧
      (analyzeSymptoms msg).prevention = jsSetDedup
        ((medicalKnowledgeBase.symptoms.filter (matchesB (lowerStr msg))).map SymptomRule.prevention)) ∧
    (∀ l : List String,
      (jsSetDedup l).Nodup ∧ (jsSetDedup l).Sublist l ∧ (∀ x, x ∈ jsSetDedup l ↔ x ∈ l)) ∧
    (∀ (x : String) (xs : List String),
      jsSetDedup (x :: xs) = x :: jsSetDedup (xs.filter (fun y => !(y == x)))) := by
  refine ⟨⟨analyzeSymptoms_conditions msg, analyzeSymptoms_advice msg, analyzeSymptoms_prevention msg⟩,
    ?_, jsSetDedup_cons⟩
  intro l
  refine ⟨dedupAux_nodup l [], dedupAux_sublist l [], fun x => ?_⟩
  have h := dedupAux_mem_iff x l []
  simpa [jsSetDedup] using h

/-- C8: the spec's worked example detects fever then headache in table
order, resolves urgency to `medium` (the maximum of the two configured
levels, medium and low), and returns non-empty duplicate-free conditions,
advice and prevention lists. -/
theorem fever_headache_example :
    (analyzeSymptoms "I have fever for 2 days with headache").symptoms = ["fever", "headache"] ∧
    (analyzeSymptoms "I have fever for 2 days with headache").urgency = Urgency.medium ∧
    (analyzeSymptoms "I have fever for 2 days with headache").urgency =
      specMaxUrgency Urgency.medium Urgency.low ∧
    (analyzeSymptoms "I have fever for 2 days with headache").conditions ≠ [] ∧
    (analyzeSymptoms "I have fever for 2 days with headache").conditions.Nodup ∧
    (analyzeSymptoms "I have fever for 2 days with headache").advice ≠ [] ∧
    (analyzeSymptoms "I have fever for 2 days with headache").advice.Nodup ∧
    (analyzeSymptoms "I have fever for 2 days with headache").prevention ≠ [] ∧
    (analyzeSymptoms "I have fever for 2 days with headache").prevention.Nodup := by
  decide

/-- C9: the response bundle is a pure function of the classification
result alone: two calls with the same analysis but arbitrary different
user messages and user contexts return identical bundles. -/
theorem generateMedicalResponse_pure {κ₁ κ₂ : Type} (analysis : ClassificationResult)
    (m₁ m₂ : String) (c₁ : κ₁) (c₂ : κ₂) :
    generateMedicalResponse analysis m₁ c₁ = generateMedicalResponse analysis m₂ c₂ := rfl

/-- C10: the asymmetric promotion chain coincides pointwise with the
simple maximum, the final urgency of `analyzeSymptoms` is the fold of that
maximum over the matched rules' urgencies from the emergency-determined
seed, and that fold is invariant under any permutation of the iteration
order. -/
theorem urgency_merge_refines_max :
    (∀ u r : Urgency, stepUrgency u r = specMaxUrgency u r) ∧
    (∀ msg : String,
      (analyzeSymptoms msg).urgency =
        List.foldl specMaxUrgency
          (if medicalKnowledgeBase.emergencyKeywords.any
              (fun keyword => jsIncludes (lowerStr msg) keyword) then Urgency.critical
            else Urgency.low)
          ((medicalKnowledgeBase.symptoms.filter (matchesB (lowerStr msg))).map SymptomRule.urgency)) ∧
    (∀ (i : Urgency) (l₁ l₂ : List Urgency), l₁.Perm l₂ →
      List.foldl specMaxUrgency i l₁ = List.foldl specMaxUrgency i l₂) := by
  refine ⟨stepUrgency_eq_specMax, ?_, foldl_specMax_perm⟩
  intro msg
  rw [analyzeSymptoms_urgency, foldl_stepUrgency_eq_specMax]

/-- C10 witness: the components at concrete inputs, including a concrete
permutation of matched urgencies. -/
theorem urgency_merge_refines_max_witness :
    stepUrgency Urgency.low Urgency.high = specMaxUrgency Urgency.low Urgency.high ∧
    (analyzeSymptoms "fever and cough").urgency =
      List.foldl specMaxUrgency
        (if medicalKnowledgeBase.emergencyKeywords.any
            (fun keyword => jsIncludes (lowerStr "fever and cough") keyword) then Urgency.critical
          else Urgency.low)
        ((medicalKnowledgeBase.symptoms.filter (matchesB (lowerStr "fever and cough"))).map SymptomRule.urgency) ∧
    List.foldl specMaxUrgency Urgency.low [Urgency.medium, Urgency.high] =
      List.foldl specMaxUrgency Urgency.low [Urgency.high, Urgency.medium] :=
  ⟨urgency_merge_refines_max.1 Urgency.low Urgency.high,
   urgency_merge_refines_max.2.1 "fever and cough",
   urgency_merge_refines_max.2.2 Urgency.low [Urgency.medium, Urgency.high]
     [Urgency.high, Urgency.medium] (by decide)⟩
